import Mathlib

/-!
Verification of the smolib authentication proxy (src/main.py): a FastAPI
facade over a Supabase auth client.  The definitions below are a shallow
embedding of the Python source: pure helper functions become Lean functions,
each HTTP handler becomes a function from its (already transport-decoded)
inputs and a provider oracle to a result together with the list of provider
operations it invoked, and raised HTTPExceptions become the error side of
an Except.
-/

namespace Smolib

/-- A JSON value, as produced by pydantic model_dump(mode=json). -/
inductive JValue where
  | null
  | str (s : String)
  | num (n : Int)
  | obj (fields : List (String × JValue))

/-- Embedding of fastapi.HTTPException: a status code and a detail message. -/
structure HTTPException where
  status_code : Nat
  detail : String
deriving DecidableEq, Repr

/-- Embedding of the supabase AuthError hierarchy as a tagged union:
AuthApiError carries a provider-assigned status code and message; any other
AuthError is represented by its str() rendering. -/
inductive AuthError where
  | apiError (statusCode : Nat) (message : String)
  | generic (strRepr : String)
deriving DecidableEq, Repr

/-- Modelled from supabase_auth.types: a provider User record, kept opaque as
its own JSON dump (the proxy passes it through verbatim). -/
structure User where
  dump : List (String × JValue)

/-- Modelled from supabase_auth.types: a provider Session record, with the
five fields the proxy keeps plus the other fields the provider supplies
(provider tokens and the embedded user), which the proxy must drop. -/
structure Session where
  provider_token : Option String
  provider_refresh_token : Option String
  access_token : String
  refresh_token : String
  expires_in : Int
  expires_at : Option Int
  token_type : String
  user : Option User

/-- Modelled from supabase_auth.types: AuthResponse, with user and session
each independently optional. -/
structure AuthResponse where
  user : Option User
  session : Option Session

/-- Modelled from supabase_auth.types: UserResponse as returned by get_user. -/
structure UserResponse where
  user : Option User

/-- Python str.partition with a single-space separator, on the character
list: (text before the first space, text after it).  When the string has no
space the whole string is the first component and the second is empty,
matching partition returning an empty third component. -/
def splitAtFirstSpace : List Char → List Char × List Char
  | [] => ([], [])
  | c :: cs =>
    if c = ' ' then ([], cs)
    else
      let p := splitAtFirstSpace cs
      (c :: p.1, p.2)

/-- Python str.strip(): remove leading and trailing whitespace characters. -/
def stripChars (l : List Char) : List Char :=
  ((l.dropWhile Char.isWhitespace).reverse.dropWhile Char.isWhitespace).reverse

/-- Embedding of _read_bearer_token (src/main.py lines 108-122): reject a
missing or empty header with 401, split at the first space, reject with 401
when the scheme does not lowercase to bearer or the portion after the first
space is empty, and otherwise return that portion stripped of surrounding
whitespace. -/
def _read_bearer_token (authorization : Option String) :
    Except HTTPException String :=
  match authorization with
  | none => .error ⟨401, "Missing Authorization header."⟩
  | some auth =>
    if auth.data = [] then
      .error ⟨401, "Missing Authorization header."⟩
    else if (splitAtFirstSpace auth.data).1.map Char.toLower ≠ "bearer".data ∨
        (splitAtFirstSpace auth.data).2 = [] then
      .error ⟨401, "Authorization header must be: Bearer <token>."⟩
    else
      .ok (String.mk (stripChars (splitAtFirstSpace auth.data).2))

/-- The five session fields the proxy keeps, in model declaration order. -/
def sessionIncludeFields : List String :=
  ["access_token", "refresh_token", "expires_in", "expires_at", "token_type"]

/-- Full pydantic dump of a Session in field declaration order, before the
include filter of _serialize_session is applied. -/
def session_model_dump (s : Session) : List (String × JValue) :=
  [ ("provider_token", match s.provider_token with
      | none => .null | some t => .str t),
    ("provider_refresh_token", match s.provider_refresh_token with
      | none => .null | some t => .str t),
    ("access_token", .str s.access_token),
    ("refresh_token", .str s.refresh_token),
    ("expires_in", .num s.expires_in),
    ("expires_at", match s.expires_at with
      | none => .null | some n => .num n),
    ("token_type", .str s.token_type),
    ("user", match s.user with
      | none => .null | some u => .obj u.dump) ]

/-- Embedding of _serialize_session (src/main.py lines 125-138): None maps to
None, otherwise model_dump restricted to the five included fields. -/
def _serialize_session (session : Option Session) :
    Option (List (String × JValue)) :=
  match session with
  | none => none
  | some s =>
    some ((session_model_dump s).filter
      (fun kv => sessionIncludeFields.contains kv.1))

/-- Embedding of _serialize_user (src/main.py lines 141-144): None maps to
None, otherwise the full user dump with no field filtering. -/
def _serialize_user (user : Option User) : Option (List (String × JValue)) :=
  match user with
  | none => none
  | some u => some u.dump

/-- The wire shape of a serialized auth response: the user and session
entries of the returned JSON object, each possibly null. -/
structure AuthBody where
  user : Option (List (String × JValue))
  session : Option (List (String × JValue))

/-- Embedding of _serialize_auth_response (src/main.py lines 147-151). -/
def _serialize_auth_response (response : AuthResponse) : AuthBody :=
  ⟨_serialize_user response.user, _serialize_session response.session⟩

/-- Embedding of _map_auth_error (src/main.py lines 154-158): an
AuthApiError keeps its own status and message, any other AuthError becomes
a 400 with its str() rendering as the detail. -/
def _map_auth_error (error : AuthError) : HTTPException :=
  match error with
  | .apiError statusCode message => ⟨statusCode, message⟩
  | .generic strRepr => ⟨400, strRepr⟩

/-! Request payload models and their pydantic validation.  FastAPI validates
the request body before the handler body runs; a validation failure is a 422
response produced before any handler code executes. -/

/-- Embedding of SignUpPayload (src/main.py lines 64-67): email is a plain
required string, password is required with min_length 8, metadata is an
optional free-form object. -/
structure SignUpPayload where
  email : String
  password : String
  metadata : Option (List (String × JValue))

/-- Embedding of SignInPayload (src/main.py lines 70-72): email and password
are required plain strings with no length constraints. -/
structure SignInPayload where
  email : String
  password : String

/-- Embedding of RefreshPayload (src/main.py lines 75-76): refresh_token is
required with min_length 1. -/
structure RefreshPayload where
  refresh_token : String

/-- Embedding of SignOutPayload (src/main.py lines 79-80): scope is one of
the literals global, local, others, defaulting to global. -/
structure SignOutPayload where
  scope : String

/-- The three permitted sign-out scope literals. -/
def signOutScopes : List String := ["global", "local", "others"]

/-- Raw JSON body of a sign-up request before pydantic validation: each
field either present or absent. -/
structure SignUpRaw where
  email : Option String
  password : Option String
  metadata : Option (List (String × JValue))

/-- Raw JSON body of a sign-in request before pydantic validation. -/
structure SignInRaw where
  email : Option String
  password : Option String

/-- Raw JSON body of a refresh request before pydantic validation. -/
structure RefreshRaw where
  refresh_token : Option String

/-- Raw JSON body of a sign-out request before pydantic validation. -/
structure SignOutRaw where
  scope : Option String

/-- The 422 Unprocessable Entity failure FastAPI produces when pydantic
validation of the request body fails. -/
def validationError (detail : String) : HTTPException := ⟨422, detail⟩

/-- Pydantic validation of SignUpPayload: both email and password must be
present, and password must have at least 8 characters.  Any string,
including the empty string, is accepted for email. -/
def validateSignUp (raw : SignUpRaw) : Except HTTPException SignUpPayload :=
  match raw.email, raw.password with
  | some e, some p =>
    if p.length < 8 then
      .error (validationError "String should have at least 8 characters")
    else
      .ok ⟨e, p, raw.metadata⟩
  | _, _ => .error (validationError "Field required")

/-- Pydantic validation of SignInPayload: both fields must be present; no
constraint on their values, so empty strings are accepted. -/
def validateSignIn (raw : SignInRaw) : Except HTTPException SignInPayload :=
  match raw.email, raw.password with
  | some e, some p => .ok ⟨e, p⟩
  | _, _ => .error (validationError "Field required")

/-- Pydantic validation of RefreshPayload: refresh_token must be present
with at least one character. -/
def validateRefresh (raw : RefreshRaw) : Except HTTPException RefreshPayload :=
  match raw.refresh_token with
  | some t =>
    if t.length < 1 then
      .error (validationError "String should have at least 1 character")
    else
      .ok ⟨t⟩
  | none => .error (validationError "Field required")

/-- Pydantic validation of SignOutPayload: an omitted scope field defaults
to global; a supplied scope must be one of the three permitted literals. -/
def validateSignOut (raw : SignOutRaw) : Except HTTPException SignOutPayload :=
  match raw.scope with
  | none => .ok ⟨"global"⟩
  | some s =>
    if signOutScopes.contains s then .ok ⟨s⟩
    else .error (validationError "Input should be global, local or others")

/-! The handlers.  Each is a function of the provider oracle for the single
operation it invokes and of its decoded inputs; it returns the transport
result together with the list of provider operations actually invoked, so
that the short-circuit properties (no provider call on local failure) are
stated about the embedding itself. -/

/-- The credentials dict sign_up builds for the provider: email, password,
and, when metadata was supplied, options.data carrying it. -/
structure Credentials where
  email : String
  password : String
  options_data : Option (List (String × JValue))

/-- One invocation of a provider operation, with the arguments the handler
passed to it. -/
inductive ProviderCall where
  | signUp (credentials : Credentials)
  | signInWithPassword (email password : String)
  | refreshSession (refresh_token : String)
  | getUser (access_token : String)
  | adminSignOut (access_token : String) (scope : String)

/-- The observable outcome of one request: the transport result and the
provider operations invoked while producing it. -/
structure HandlerRun (α : Type) where
  result : Except HTTPException α
  calls : List ProviderCall

/-- Embedding of the sign_up handler (src/main.py lines 161-178) together
with the body validation FastAPI performs before it runs. -/
def sign_up (provider : Credentials → Except AuthError AuthResponse)
    (raw : SignUpRaw) : HandlerRun AuthBody :=
  match validateSignUp raw with
  | .error e => ⟨.error e, []⟩
  | .ok payload =>
    let credentials : Credentials :=
      ⟨payload.email, payload.password, payload.metadata⟩
    match provider credentials with
    | .error e => ⟨.error (_map_auth_error e), [.signUp credentials]⟩
    | .ok response =>
      ⟨.ok (_serialize_auth_response response), [.signUp credentials]⟩

/-- Embedding of the sign_in handler (src/main.py lines 181-193) together
with the body validation FastAPI performs before it runs. -/
def sign_in (provider : String → String → Except AuthError AuthResponse)
    (raw : SignInRaw) : HandlerRun AuthBody :=
  match validateSignIn raw with
  | .error e => ⟨.error e, []⟩
  | .ok payload =>
    match provider payload.email payload.password with
    | .error e =>
      ⟨.error (_map_auth_error e),
       [.signInWithPassword payload.email payload.password]⟩
    | .ok response =>
      ⟨.ok (_serialize_auth_response response),
       [.signInWithPassword payload.email payload.password]⟩

/-- Embedding of the refresh handler (src/main.py lines 196-206) together
with the body validation FastAPI performs before it runs. -/
def refresh (provider : String → Except AuthError AuthResponse)
    (raw : RefreshRaw) : HandlerRun AuthBody :=
  match validateRefresh raw with
  | .error e => ⟨.error e, []⟩
  | .ok payload =>
    match provider payload.refresh_token with
    | .error e =>
      ⟨.error (_map_auth_error e), [.refreshSession payload.refresh_token]⟩
    | .ok response =>
      ⟨.ok (_serialize_auth_response response),
       [.refreshSession payload.refresh_token]⟩

/-- The response body of GET /auth/me: a JSON object with a single user
entry holding the serialized user. -/
structure MeBody where
  user : Option (List (String × JValue))

/-- Embedding of the me handler (src/main.py lines 209-227): extract the
bearer token, call get_user, map a raised AuthError, and turn a structurally
successful response with a missing or user-less payload into a 401. -/
def me (provider : String → Except AuthError (Option UserResponse))
    (authorization : Option String) : HandlerRun MeBody :=
  match _read_bearer_token authorization with
  | .error e => ⟨.error e, []⟩
  | .ok access_token =>
    match provider access_token with
    | .error e => ⟨.error (_map_auth_error e), [.getUser access_token]⟩
    | .ok userResponse =>
      match userResponse with
      | none =>
        ⟨.error ⟨401, "Invalid or expired access token."⟩,
         [.getUser access_token]⟩
      | some r =>
        match r.user with
        | none =>
          ⟨.error ⟨401, "Invalid or expired access token."⟩,
           [.getUser access_token]⟩
        | some u => ⟨.ok ⟨_serialize_user (some u)⟩, [.getUser access_token]⟩

/-- The sign_out handler body proper (src/main.py lines 236-242): bearer
extraction, scope defaulting when the payload is None, one admin sign_out
call; success is 204 with no body. -/
def signOutCore (provider : String → String → Except AuthError Unit)
    (payload : Option SignOutPayload) (authorization : Option String) :
    HandlerRun Unit :=
  match _read_bearer_token authorization with
  | .error e => ⟨.error e, []⟩
  | .ok access_token =>
    let scope := match payload with
      | some p => p.scope
      | none => "global"
    match provider access_token scope with
    | .error e =>
      ⟨.error (_map_auth_error e), [.adminSignOut access_token scope]⟩
    | .ok _ => ⟨.ok (), [.adminSignOut access_token scope]⟩

/-- Embedding of the sign_out handler (src/main.py lines 230-242) together
with the optional-body validation FastAPI performs before it runs: an absent
body leaves the payload None. -/
def sign_out (provider : String → String → Except AuthError Unit)
    (rawBody : Option SignOutRaw) (authorization : Option String) :
    HandlerRun Unit :=
  match rawBody.map validateSignOut with
  | some (.error e) => ⟨.error e, []⟩
  | some (.ok p) => signOutCore provider (some p) authorization
  | none => signOutCore provider none authorization

/-! Configuration resolver (src/main.py lines 12-41). -/

/-- The ordered candidate key variable names (src/main.py lines 12-16). -/
def SUPABASE_KEY_ENV_NAMES : List String :=
  ["SUPABASE_ANON_KEY", "SUPABASE_KEY", "SUPABASE_SERVICE_ROLE_KEY"]

/-- os.getenv followed by the Python truthiness test the source applies:
an unset variable and an empty value are both treated as absent. -/
def truthyEnv (env : String → Option String) (name : String) :
    Option String :=
  match env name with
  | none => none
  | some v => if v = "" then none else some v

/-- Probe an ordered list of variable names and return the first truthy
value, as the loop of _read_supabase_key does. -/
def firstTruthy (env : String → Option String) : List String → Option String
  | [] => none
  | name :: rest =>
    match truthyEnv env name with
    | some v => some v
    | none => firstTruthy env rest

/-- Embedding of _read_supabase_key (src/main.py lines 19-24). -/
def _read_supabase_key (env : String → Option String) : Option String :=
  firstTruthy env SUPABASE_KEY_ENV_NAMES

/-- Python str.rstrip with a slash argument: drop every trailing slash. -/
def rstripSlashes (s : String) : String :=
  String.mk (s.data.reverse.dropWhile (fun c => c = '/')).reverse

/-- The resolved application state the lifespan stores. -/
structure Config where
  supabase_url : String
  supabase_key : String
deriving DecidableEq, Repr

/-- Embedding of the configuration part of lifespan (src/main.py lines
27-41): read SUPABASE_URL and the first truthy candidate key; fail fatally
with the RuntimeError message when either is absent or empty; store the URL
with trailing slashes stripped. -/
def lifespan (env : String → Option String) : Except String Config :=
  match truthyEnv env "SUPABASE_URL", _read_supabase_key env with
  | some url, some key => .ok ⟨rstripSlashes url, key⟩
  | _, _ =>
    .error ("Missing Supabase configuration. Set SUPABASE_URL and " ++
      "SUPABASE_ANON_KEY (or SUPABASE_KEY / SUPABASE_SERVICE_ROLE_KEY).")

/-- A concrete environment fixture used to witness the configuration
claims: the URL has a trailing slash, the anonymous key is unset, and the
generic key is the first truthy candidate. -/
def envFixture : String → Option String :=
  fun name =>
    if name = "SUPABASE_URL" then some "https://example.supabase.co/"
    else if name = "SUPABASE_KEY" then some "generic-key"
    else none

/-! Helper lemmas about the embedded string primitives. -/

/-- The String constructor is the inverse of the data projection. -/
lemma data_mk (l : List Char) : (String.mk l).data = l := rfl

/-- The scheme part produced by splitAtFirstSpace contains no space. -/
lemma splitAtFirstSpace_fst_no_space (l : List Char) :
    ' ' ∉ (splitAtFirstSpace l).1 := by
  induction l with
  | nil => simp [splitAtFirstSpace]
  | cons c cs ih =>
    by_cases h : c = ' '
    · simp [splitAtFirstSpace, h]
    · simp only [splitAtFirstSpace, if_neg h, List.mem_cons, not_or]
      exact ⟨fun e => h e.symm, ih⟩

/-- When splitAtFirstSpace returns a non-empty second component, the input
is the first component, a space, and the second component. -/
lemma splitAtFirstSpace_eq_of_snd_ne_nil (l : List Char)
    (h : (splitAtFirstSpace l).2 ≠ []) :
    l = (splitAtFirstSpace l).1 ++ ' ' :: (splitAtFirstSpace l).2 := by
  induction l with
  | nil => simp [splitAtFirstSpace] at h
  | cons c cs ih =>
    by_cases hc : c = ' '
    · subst hc; simp [splitAtFirstSpace]
    · simp only [splitAtFirstSpace, if_neg hc] at h ⊢
      simpa using ih h

/-- splitAtFirstSpace recovers an explicit scheme-space-token split when
the scheme has no space of its own. -/
lemma splitAtFirstSpace_append (a b : List Char) (ha : ' ' ∉ a) :
    splitAtFirstSpace (a ++ ' ' :: b) = (a, b) := by
  induction a with
  | nil => simp [splitAtFirstSpace]
  | cons c a ih =>
    have hc : ¬ c = ' ' := fun e => ha (by rw [e]; exact List.mem_cons_self _ _)
    have hr := ih (fun hm => ha (List.mem_cons_of_mem c hm))
    simp only [List.cons_append, splitAtFirstSpace, if_neg hc,
      List.append_eq, hr]

/-- The head of a dropWhile run never satisfies the dropped predicate. -/
lemma head_dropWhile_not (p : Char → Bool) (l : List Char) (c : Char)
    (h : (l.dropWhile p).head? = some c) : p c = false := by
  induction l with
  | nil => simp [List.dropWhile] at h
  | cons a l ih =>
    by_cases hp : p a
    · rw [List.dropWhile_cons_of_pos hp] at h; exact ih h
    · rw [List.dropWhile_cons_of_neg hp] at h
      simp only [List.head?_cons, Option.some.injEq] at h
      subst h; simpa using hp

/-- rstripSlashes leaves no trailing slash. -/
lemma rstripSlashes_no_trailing (s : String) (c : Char)
    (h : (rstripSlashes s).data.getLast? = some c) : c ≠ '/' := by
  unfold rstripSlashes at h
  rw [data_mk, List.getLast?_reverse] at h
  have := head_dropWhile_not _ _ _ h
  simpa using this

/-- A missing, empty, or wrongly schemed Authorization header makes
bearer-token extraction fail with a 401. -/
lemma read_bearer_unauthorized (auth : Option String)
    (h : auth = none ∨ auth = some "" ∨
      ∃ s, auth = some s ∧
        (splitAtFirstSpace s.data).1.map Char.toLower ≠ "bearer".data) :
    ∃ d, _read_bearer_token auth = .error ⟨401, d⟩ := by
  rcases h with rfl | rfl | ⟨s, rfl, hs⟩
  · exact ⟨"Missing Authorization header.", rfl⟩
  · exact ⟨"Missing Authorization header.", rfl⟩
  · by_cases hd : s.data = []
    · exact ⟨"Missing Authorization header.", by
        simp [_read_bearer_token, hd]⟩
    · refine ⟨"Authorization header must be: Bearer <token>.", ?_⟩
      simp only [_read_bearer_token, if_neg hd]
      rw [if_pos (Or.inl hs)]

/-! The claims. -/

/-- C1, counterexample: the claim says a header whose token portion is
empty after trimming always fails with 401 and the provider is never
invoked.  On the header consisting of the word Bearer followed by two
spaces, the token portion is a single space, which is empty after trimming,
yet extraction succeeds with the empty token and GET /auth/me invokes the
provider with it. -/
theorem bearer_whitespace_token_accepted :
    stripChars (splitAtFirstSpace "Bearer  ".data).2 = [] ∧
    _read_bearer_token (some "Bearer  ") = .ok "" ∧
    (me (fun _ => .ok none) (some "Bearer  ")).calls = [.getUser ""] :=
  ⟨by decide, rfl, rfl⟩

/-- C1, amended: bearer-token extraction succeeds exactly when the header
is present and is a scheme that case-insensitively equals bearer, followed
by a space and a non-empty (possibly all-whitespace) token portion; the
extracted value is the token portion with surrounding whitespace stripped,
and may therefore be empty, in which case the provider is still invoked. -/
theorem bearer_token_ok_iff (auth : Option String) (t : String) :
    _read_bearer_token auth = .ok t ↔
      ∃ scheme tok : List Char, ' ' ∉ scheme ∧ tok ≠ [] ∧
        scheme.map Char.toLower = "bearer".data ∧
        auth = some (String.mk (scheme ++ ' ' :: tok)) ∧
        t = String.mk (stripChars tok) := by
  constructor
  · intro h
    match auth with
    | none => simp [_read_bearer_token] at h
    | some s =>
      simp only [_read_bearer_token] at h
      by_cases hd : s.data = []
      · rw [if_pos hd] at h; exact absurd h (by simp)
      · rw [if_neg hd] at h
        by_cases hc : (splitAtFirstSpace s.data).1.map Char.toLower ≠
            "bearer".data ∨ (splitAtFirstSpace s.data).2 = []
        · rw [if_pos hc] at h; exact absurd h (by simp)
        · rw [if_neg hc] at h
          rw [not_or, not_not] at hc
          obtain ⟨hlow, hne⟩ := hc
          have hdecomp := splitAtFirstSpace_eq_of_snd_ne_nil s.data hne
          refine ⟨(splitAtFirstSpace s.data).1, (splitAtFirstSpace s.data).2,
            splitAtFirstSpace_fst_no_space _, hne, hlow, ?_, ?_⟩
          · rw [← hdecomp]
          · injection h with h; exact h.symm
  · rintro ⟨scheme, tok, hns, hne, hlow, rfl, rfl⟩
    simp only [_read_bearer_token, data_mk]
    have h1 : ¬(scheme ++ ' ' :: tok = ([] : List Char)) := by simp
    rw [if_neg h1, splitAtFirstSpace_append scheme tok hns]
    have h2 : ¬((scheme, tok).1.map Char.toLower ≠ "bearer".data ∨
        (scheme, tok).2 = []) := by simp [hlow, hne]
    rw [if_neg h2]

/-- C1, witness for the amended theorem: the header Bearer followed by a
token extracts that token. -/
theorem bearer_token_ok_iff_witness :
    _read_bearer_token (some "Bearer tok") = .ok "tok" :=
  (bearer_token_ok_iff (some "Bearer tok") "tok").mpr
    ⟨"Bearer".data, "tok".data, by decide, by decide, by decide, rfl, rfl⟩

/-- C2: a request to GET /auth/me or POST /auth/sign-out whose
Authorization header is absent, empty, or whose scheme before the first
space does not case-insensitively equal bearer, fails with a 401 and
invokes no provider operation; for sign-out this holds whenever the
optional body is absent or passes validation. -/
theorem bad_header_rejected_locally
    (gp : String → Except AuthError (Option UserResponse))
    (sp : String → String → Except AuthError Unit)
    (rawBody : Option SignOutRaw) (auth : Option String)
    (hbody : rawBody = none ∨
      ∃ p, rawBody.map validateSignOut = some (.ok p))
    (hauth : auth = none ∨ auth = some "" ∨
      ∃ s, auth = some s ∧
        (splitAtFirstSpace s.data).1.map Char.toLower ≠ "bearer".data) :
    ((∃ d, (me gp auth).result = .error ⟨401, d⟩) ∧ (me gp auth).calls = []) ∧
    ((∃ d, (sign_out sp rawBody auth).result = .error ⟨401, d⟩) ∧
      (sign_out sp rawBody auth).calls = []) := by
  obtain ⟨d, hd⟩ := read_bearer_unauthorized auth hauth
  refine ⟨⟨⟨d, ?_⟩, ?_⟩, ?_⟩
  · simp [me, hd]
  · simp [me, hd]
  · rcases hbody with rfl | ⟨p, hp⟩
    · exact ⟨⟨d, by simp [sign_out, signOutCore, hd]⟩,
        by simp [sign_out, signOutCore, hd]⟩
    · exact ⟨⟨d, by simp [sign_out, hp, signOutCore, hd]⟩,
        by simp [sign_out, hp, signOutCore, hd]⟩

/-- C2, witness: with no Authorization header, GET /auth/me and a bodyless
POST /auth/sign-out both fail 401 without touching the provider. -/
theorem bad_header_rejected_locally_witness :
    ((∃ d, (me (fun _ => .ok none) none).result = .error ⟨401, d⟩) ∧
      (me (fun _ => .ok none) none).calls = []) ∧
    ((∃ d, (sign_out (fun _ _ => .ok ()) none none).result =
        .error ⟨401, d⟩) ∧
      (sign_out (fun _ _ => .ok ()) none none).calls = []) :=
  bad_header_rejected_locally (fun _ => .ok none) (fun _ _ => .ok ())
    none none (Or.inl rfl) (Or.inl rfl)

/-- C3: the error mapper turns an API error into a failure with exactly
the provider-assigned status code and message, and any other auth error
into a 400 whose message is the error string representation. -/
theorem map_auth_error_spec :
    (∀ statusCode message, _map_auth_error (.apiError statusCode message) =
      ⟨statusCode, message⟩) ∧
    (∀ strRepr, _map_auth_error (.generic strRepr) = ⟨400, strRepr⟩) :=
  ⟨fun _ _ => rfl, fun _ => rfl⟩

/-- C4: the normalizer never fails: for every auth response it produces a
user-session pair where a serialized session carries exactly the five kept
fields in order, and where each of user and session is null exactly when
the provider omitted it. -/
theorem auth_response_normalizer_spec (response : AuthResponse) :
    ((_serialize_auth_response response).session.elim True
      (fun l => l.map Prod.fst =
        ["access_token", "refresh_token", "expires_in", "expires_at",
          "token_type"])) ∧
    ((_serialize_auth_response response).user = none ↔
      response.user = none) ∧
    ((_serialize_auth_response response).session = none ↔
      response.session = none) := by
  obtain ⟨u, s⟩ := response
  refine ⟨?_, ?_, ?_⟩
  · cases s with
    | none => simp [_serialize_auth_response, _serialize_session]
    | some s => exact rfl
  · cases u <;> simp [_serialize_auth_response, _serialize_user]
  · cases s <;> simp [_serialize_auth_response, _serialize_session]

/-- C5, counterexample: the claim says an empty email or password is
rejected before any provider call, but sign-in applies no local constraint
at all: the all-empty credentials pass validation and the provider is
invoked with them, and sign-up likewise accepts an empty email. -/
theorem empty_credentials_accepted :
    validateSignIn ⟨some "", some ""⟩ = .ok ⟨"", ""⟩ ∧
    (sign_in (fun _ _ => .error (.generic "connection reset"))
      ⟨some "", some ""⟩).calls = [.signInWithPassword "" ""] ∧
    validateSignUp ⟨some "", some "longpass", none⟩ =
      .ok ⟨"", "longpass", none⟩ :=
  ⟨rfl, rfl, rfl⟩

/-- C5, amended: email and password are required to be present for sign-up
and sign-in, and a missing field is rejected with a 422 before any provider
call; but neither endpoint rejects empty strings as such: sign-up bounds
only the password length (at least 8, hence non-empty) while accepting an
empty email, and sign-in forwards whatever strings were supplied, empty or
not, straight to the provider. -/
theorem credentials_required_fields :
    (∀ (provider : Credentials → Except AuthError AuthResponse)
       (pw : Option String) (md : Option (List (String × JValue))),
       (∃ d, (sign_up provider ⟨none, pw, md⟩).result = .error ⟨422, d⟩) ∧
       (sign_up provider ⟨none, pw, md⟩).calls = []) ∧
    (∀ (provider : Credentials → Except AuthError AuthResponse)
       (em : String) (md : Option (List (String × JValue))),
       (∃ d, (sign_up provider ⟨some em, none, md⟩).result =
         .error ⟨422, d⟩) ∧
       (sign_up provider ⟨some em, none, md⟩).calls = []) ∧
    (∀ (provider : String → String → Except AuthError AuthResponse)
       (pw : Option String),
       (∃ d, (sign_in provider ⟨none, pw⟩).result = .error ⟨422, d⟩) ∧
       (sign_in provider ⟨none, pw⟩).calls = []) ∧
    (∀ (provider : String → String → Except AuthError AuthResponse)
       (em : String),
       (∃ d, (sign_in provider ⟨some em, none⟩).result = .error ⟨422, d⟩) ∧
       (sign_in provider ⟨some em, none⟩).calls = []) ∧
    (∀ (provider : String → String → Except AuthError AuthResponse)
       (em pw : String),
       (sign_in provider ⟨some em, some pw⟩).calls =
         [.signInWithPassword em pw]) := by
  refine ⟨?_, ?_, ?_, ?_, ?_⟩
  · exact fun provider pw md => ⟨⟨"Field required", rfl⟩, rfl⟩
  · exact fun provider em md => ⟨⟨"Field required", rfl⟩, rfl⟩
  · exact fun provider pw => ⟨⟨"Field required", rfl⟩, rfl⟩
  · exact fun provider em => ⟨⟨"Field required", rfl⟩, rfl⟩
  · intro provider em pw
    cases hp : provider em pw <;>
      simp [sign_in, validateSignIn, hp]

/-- C6: when bearer extraction succeeds and the provider call for GET
/auth/me completes without error but carries no user, either because the
whole response is absent or because its user field is, the handler answers
with the local 401 failure rather than a mapped provider error, having
made exactly the one provider call. -/
theorem me_empty_user_unauthorized
    (provider : String → Except AuthError (Option UserResponse))
    (auth : Option String) (token : String)
    (htok : _read_bearer_token auth = .ok token)
    (hprov : provider token = .ok none ∨
      provider token = .ok (some ⟨none⟩)) :
    (me provider auth).result =
      .error ⟨401, "Invalid or expired access token."⟩ ∧
    (me provider auth).calls = [.getUser token] := by
  rcases hprov with h | h <;> exact ⟨by simp [me, htok, h], by simp [me, htok, h]⟩

/-- C6, witness: a header carrying an expired token against a provider
that returns no user yields the 401. -/
theorem me_empty_user_unauthorized_witness :
    (me (fun _ => .ok none) (some "Bearer expired-token")).result =
      .error ⟨401, "Invalid or expired access token."⟩ :=
  (me_empty_user_unauthorized (fun _ => .ok none)
    (some "Bearer expired-token") "expired-token" rfl (Or.inl rfl)).1

/-- C7: a sign-up payload whose password is shorter than 8 characters and
a refresh payload whose refresh token is the empty string are both
rejected with a 422 validation failure before any provider operation is
invoked. -/
theorem short_password_and_empty_refresh_rejected
    (pu : Credentials → Except AuthError AuthResponse)
    (pr : String → Except AuthError AuthResponse)
    (em p : String) (md : Option (List (String × JValue)))
    (hlen : p.length < 8) :
    ((∃ d, (sign_up pu ⟨some em, some p, md⟩).result = .error ⟨422, d⟩) ∧
      (sign_up pu ⟨some em, some p, md⟩).calls = []) ∧
    ((∃ d, (refresh pr ⟨some ""⟩).result = .error ⟨422, d⟩) ∧
      (refresh pr ⟨some ""⟩).calls = []) := by
  have hv : validateSignUp ⟨some em, some p, md⟩ =
      .error (validationError "String should have at least 8 characters") := by
    simp [validateSignUp, hlen]
  refine ⟨⟨⟨"String should have at least 8 characters", ?_⟩, ?_⟩,
    ⟨"String should have at least 1 character", rfl⟩, rfl⟩ <;>
    simp [sign_up, hv, validationError]

/-- C7, witness: a five-character password and an empty refresh token are
rejected locally. -/
theorem short_password_and_empty_refresh_rejected_witness :
    (∃ d, (sign_up (fun _ => .error (.generic "offline"))
      ⟨some "user@example.com", some "short", none⟩).result =
        .error ⟨422, d⟩) ∧
    (refresh (fun _ => .error (.generic "offline")) ⟨some ""⟩).calls = [] := by
  have h := short_password_and_empty_refresh_rejected
    (fun _ => .error (.generic "offline"))
    (fun _ => .error (.generic "offline"))
    "user@example.com" "short" none (by decide)
  exact ⟨h.1.1, h.2.2⟩

/-- C8, counterexample: the claim says sign-up, sign-in, and refresh never
answer with a success status when the outcome carries no authenticated
result, yet a structurally successful provider response with neither user
nor session is serialized into a 200 success whose user and session are
both null. -/
theorem empty_success_response_returned :
    (sign_in (fun _ _ => .ok ⟨none, none⟩)
      ⟨some "a@b.com", some "pw"⟩).result = .ok ⟨none, none⟩ := rfl

/-- C8, amended: no provider failure is ever swallowed: whenever the
provider raises an auth error on a validated sign-up, sign-in, or refresh,
the response is exactly the mapped transport failure; but a structurally
successful provider response with no user is still answered as an HTTP
success with a null user rather than as a failure. -/
theorem auth_failures_never_silent (e : AuthError) :
    (∀ (p : Credentials → Except AuthError AuthResponse) (em pw : String)
       (md : Option (List (String × JValue))), 8 ≤ pw.length →
       p ⟨em, pw, md⟩ = .error e →
       (sign_up p ⟨some em, some pw, md⟩).result =
         .error (_map_auth_error e)) ∧
    (∀ (p : String → String → Except AuthError AuthResponse) (em pw : String),
       p em pw = .error e →
       (sign_in p ⟨some em, some pw⟩).result = .error (_map_auth_error e)) ∧
    (∀ (p : String → Except AuthError AuthResponse) (tok : String),
       1 ≤ tok.length → p tok = .error e →
       (refresh p ⟨some tok⟩).result = .error (_map_auth_error e)) ∧
    (∀ (p : String → String → Except AuthError AuthResponse) (em pw : String)
       (r : AuthResponse), p em pw = .ok r → r.user = none →
       (sign_in p ⟨some em, some pw⟩).result =
         .ok ⟨none, _serialize_session r.session⟩) := by
  refine ⟨?_, ?_, ?_, ?_⟩
  · intro p em pw md hlen hp
    simp [sign_up, validateSignUp, Nat.not_lt.mpr hlen, hp]
  · intro p em pw hp
    simp [sign_in, validateSignIn, hp]
  · intro p tok hlen hp
    simp [refresh, validateRefresh, Nat.not_lt.mpr hlen, hp]
  · intro p em pw r hp hu
    simp [sign_in, validateSignIn, hp, _serialize_auth_response,
      _serialize_user, hu]

/-- C8, witness: a provider rejection with status 400 surfaces as exactly
that failure, and an empty provider success surfaces as a 200 with null
user and session. -/
theorem auth_failures_never_silent_witness :
    (sign_in (fun _ _ => .error (.apiError 400 "Invalid login credentials"))
      ⟨some "a@b.com", some "wrongpass"⟩).result =
        .error ⟨400, "Invalid login credentials"⟩ ∧
    (sign_in (fun _ _ => .ok ⟨none, none⟩)
      ⟨some "a@b.com", some "pw"⟩).result = .ok ⟨none, none⟩ := by
  constructor
  · exact (auth_failures_never_silent
      (.apiError 400 "Invalid login credentials")).2.1
      (fun _ _ => .error (.apiError 400 "Invalid login credentials"))
      "a@b.com" "wrongpass" rfl
  · exact (auth_failures_never_silent (.generic "unused")).2.2.2
      (fun _ _ => .ok ⟨none, none⟩) "a@b.com" "pw" ⟨none, none⟩ rfl rfl

/-- C9: the key resolver probes SUPABASE_ANON_KEY, then SUPABASE_KEY, then
SUPABASE_SERVICE_ROLE_KEY, returning the first non-empty value; startup
fails with the descriptive message when the URL or every candidate key is
absent or empty; on success the stored URL is the raw URL with trailing
slashes stripped, so it never ends in a slash. -/
theorem config_resolver_spec (env : String → Option String) :
    (∀ v, truthyEnv env "SUPABASE_ANON_KEY" = some v →
      _read_supabase_key env = some v) ∧
    (truthyEnv env "SUPABASE_ANON_KEY" = none →
      ∀ v, truthyEnv env "SUPABASE_KEY" = some v →
        _read_supabase_key env = some v) ∧
    (truthyEnv env "SUPABASE_ANON_KEY" = none →
      truthyEnv env "SUPABASE_KEY" = none →
        _read_supabase_key env =
          truthyEnv env "SUPABASE_SERVICE_ROLE_KEY") ∧
    (truthyEnv env "SUPABASE_URL" = none ∨ _read_supabase_key env = none →
      lifespan env = .error
        ("Missing Supabase configuration. Set SUPABASE_URL and " ++
          "SUPABASE_ANON_KEY (or SUPABASE_KEY / SUPABASE_SERVICE_ROLE_KEY).")) ∧
    (∀ url key, truthyEnv env "SUPABASE_URL" = some url →
      _read_supabase_key env = some key →
        lifespan env = .ok ⟨rstripSlashes url, key⟩) ∧
    (∀ cfg c, lifespan env = .ok cfg →
      cfg.supabase_url.data.getLast? = some c → c ≠ '/') := by
  refine ⟨?_, ?_, ?_, ?_, ?_, ?_⟩
  · intro v h
    simp [_read_supabase_key, SUPABASE_KEY_ENV_NAMES, firstTruthy, h]
  · intro h0 v h
    simp [_read_supabase_key, SUPABASE_KEY_ENV_NAMES, firstTruthy, h0, h]
  · intro h0 h1
    cases h2 : truthyEnv env "SUPABASE_SERVICE_ROLE_KEY" <;>
      simp [_read_supabase_key, SUPABASE_KEY_ENV_NAMES, firstTruthy,
        h0, h1, h2]
  · intro h
    rcases h with h | h
    · simp [lifespan, h]
    · cases hu : truthyEnv env "SUPABASE_URL" <;> simp [lifespan, hu, h]
  · intro url key hu hk
    simp [lifespan, hu, hk]
  · intro cfg c hok hlast
    cases hu : truthyEnv env "SUPABASE_URL" with
    | none => simp [lifespan, hu] at hok
    | some url =>
      cases hk : _read_supabase_key env with
      | none => simp [lifespan, hu, hk] at hok
      | some key =>
        simp only [lifespan, hu, hk] at hok
        injection hok with hok
        subst hok
        exact rstripSlashes_no_trailing url c hlast

/-- C9, witness: with the anonymous key unset, the generic key wins, and
the trailing slash of the URL is stripped. -/
theorem config_resolver_spec_witness :
    _read_supabase_key envFixture = some "generic-key" ∧
    lifespan envFixture =
      .ok ⟨"https://example.supabase.co", "generic-key"⟩ := by
  have h := config_resolver_spec envFixture
  have hkey : _read_supabase_key envFixture = some "generic-key" :=
    h.2.1 rfl "generic-key" rfl
  exact ⟨hkey,
    h.2.2.2.2.1 "https://example.supabase.co/" "generic-key" rfl hkey⟩

/-- C10: a sign-out request with no body behaves identically to one whose
body selects the global scope (and to one with an empty body); a supplied
scope outside the three permitted literals is rejected with a 422 before
any provider call; and a supplied permitted scope is exactly the one
passed to the provider together with the extracted token. -/
theorem sign_out_scope_spec
    (p : String → String → Except AuthError Unit) (auth : Option String) :
    (sign_out p none auth = sign_out p (some ⟨some "global"⟩) auth) ∧
    (sign_out p none auth = sign_out p (some ⟨none⟩) auth) ∧
    (∀ s, signOutScopes.contains s = false →
      (∃ d, (sign_out p (some ⟨some s⟩) auth).result = .error ⟨422, d⟩) ∧
      (sign_out p (some ⟨some s⟩) auth).calls = []) ∧
    (∀ s token, signOutScopes.contains s = true →
      _read_bearer_token auth = .ok token →
      (sign_out p (some ⟨some s⟩) auth).calls =
        [.adminSignOut token s]) := by
  refine ⟨rfl, rfl, ?_, ?_⟩
  · intro s h
    have h' : s ∉ signOutScopes := by simpa using h
    refine ⟨⟨"Input should be global, local or others", ?_⟩, ?_⟩ <;>
      simp [sign_out, validateSignOut, h', validationError]
  · intro s token h htok
    have h' : s ∈ signOutScopes := by simpa using h
    cases hp : p token s <;>
      simp [sign_out, validateSignOut, h', signOutCore, htok, hp]

/-- C10, witness: an unknown scope is rejected locally, and a supplied
local scope reaches the provider with the extracted token. -/
theorem sign_out_scope_spec_witness :
    ((∃ d, (sign_out (fun _ _ => .ok ()) (some ⟨some "invalid"⟩)
        (some "Bearer t")).result = .error ⟨422, d⟩) ∧
      (sign_out (fun _ _ => .ok ()) (some ⟨some "invalid"⟩)
        (some "Bearer t")).calls = []) ∧
    (sign_out (fun _ _ => .ok ()) (some ⟨some "local"⟩)
      (some "Bearer t")).calls = [.adminSignOut "t" "local"] :=
  ⟨(sign_out_scope_spec (fun _ _ => .ok ()) (some "Bearer t")).2.2.1
      "invalid" rfl,
    (sign_out_scope_spec (fun _ _ => .ok ()) (some "Bearer t")).2.2.2
      "local" "t" rfl rfl⟩

end Smolib
